import Mathlib

/-!
Verification of pg_misc_functions.c (contrib/pg_misc_functions).

The module exposes six SQL functions: pg_cause_panic, pg_cause_fatal,
pg_signal_backend_with_pid (backed by the static helper SignalBackend),
and three timeline accessors pg_current_wal_tli, pg_last_wal_replay_tli,
pg_last_wal_receive_tli.

The embedding makes the external collaborators explicit in an `Env` record:
the superuser check, PostmasterPid, the two registry lookups
(BackendPidGetProc / AuxiliaryPidGetProc, modelled as found / not-found),
the HAVE_SETSID platform flag, the OS kill call (None = success,
some err = failure with errno detail, as printed by the %m directive),
and the three shared TimeLineID values.  Observable side effects of a call
(registry queries, the kill attempt, WARNING-level diagnostics) are
returned as an ordered event trace.  ereport at severity ERROR / FATAL /
PANIC is a non-local exit and is modelled with `Except`: the function
result is `Except.error` carrying the error data, and an `Except.error`
result means the call never returns normally.
-/

/-- Severity levels of ereport calls appearing in the module. -/
inductive Severity
  | warningLevel
  | errorLevel
  | fatalLevel
  | panicLevel
deriving DecidableEq, Repr

/-- SQLSTATE error codes appearing in the module. -/
inductive SqlErrCode
  | insufficientPrivilege
  | internalError
deriving DecidableEq, Repr

/-- Data carried by an ereport that aborts the call: severity, errcode,
errmsg and the optional errdetail string. -/
structure ErrData where
  severity : Severity
  code : SqlErrCode
  msg : String
  detail : Option String
deriving DecidableEq, Repr

/-- WARNING-level diagnostics emitted by SignalBackend, with the data
interpolated into their format strings. -/
inductive Warning
  | notServerProcess (pid : Int)
  | couldNotSendSignal (signum : Int) (pid : Int) (osErr : String)
deriving DecidableEq, Repr

/-- Observable effects of a SignalBackend call, in program order. -/
inductive Event
  | queryWorkerRegistry (pid : Int)
  | queryAuxRegistry (pid : Int)
  | sendSignal (target : Int) (signum : Int)
  | warnEvent (w : Warning)
deriving DecidableEq, Repr

/-- External collaborators of the module. -/
structure Env where
  superuser : Bool
  postmasterPid : Int
  backendProc : Int → Bool
  auxProc : Int → Bool
  haveSetsid : Bool
  kill : Int → Int → Option String
  currentTli : Nat
  replayTli : Nat
  receiveTli : Nat

/-- The errdetail string attached by pg_cause_panic and pg_cause_fatal to
their insufficient-privilege errors. -/
def testingDetail : String :=
  "This function needs to be strictly used only for testing or development purposes not on production servers."

/-- The pid actually passed to kill(): with HAVE_SETSID the pid is negated
so the whole process group is signalled, otherwise the single process. -/
def killTarget (env : Env) (pid : Int) : Int :=
  if env.haveSetsid then -pid else pid

/-- The tail of SignalBackend after resolution succeeded: the kill() call
and, on failure, the WARNING at line 157 and `return false`; on success
`return true` (lines 149-163 of pg_misc_functions.c). -/
def deliverSignal (env : Env) (pid signum : Int) (evs : List Event) :
    Bool × List Event :=
  match env.kill (killTarget env pid) signum with
  | none =>
      (true, evs ++ [Event.sendSignal (killTarget env pid) signum])
  | some osErr =>
      (false, evs ++ [Event.sendSignal (killTarget env pid) signum,
        Event.warnEvent (Warning.couldNotSendSignal signum pid osErr)])

/-- SignalBackend (lines 90-164 of pg_misc_functions.c): if pid is the
postmaster, do nothing and fall through to kill(); else look the pid up
with BackendPidGetProc, then AuxiliaryPidGetProc; if both return NULL,
emit the WARNING at line 127 and return false; else fall through to
kill(). -/
def SignalBackend (env : Env) (pid signum : Int) : Bool × List Event :=
  if pid = env.postmasterPid then
    deliverSignal env pid signum []
  else if env.backendProc pid then
    deliverSignal env pid signum [Event.queryWorkerRegistry pid]
  else if env.auxProc pid then
    deliverSignal env pid signum
      [Event.queryWorkerRegistry pid, Event.queryAuxRegistry pid]
  else
    (false, [Event.queryWorkerRegistry pid, Event.queryAuxRegistry pid,
      Event.warnEvent (Warning.notServerProcess pid)])

/-- pg_cause_panic (lines 45-62): superuser check raising ERROR with
errdetail, then ereport(PANIC).  Both exits are non-local, so the result
is always `Except.error`: the function never returns normally. -/
def pg_cause_panic (env : Env) : Except ErrData Unit :=
  if !env.superuser then
    Except.error ⟨Severity.errorLevel, SqlErrCode.insufficientPrivilege,
      "must be a superuser to execute pg_cause_panic function",
      some testingDetail⟩
  else
    Except.error ⟨Severity.panicLevel, SqlErrCode.internalError,
      "PANIC generated by pg_cause_panic function", none⟩

/-- pg_cause_fatal (lines 67-84): superuser check raising ERROR with
errdetail, then ereport(FATAL).  Never returns normally. -/
def pg_cause_fatal (env : Env) : Except ErrData Unit :=
  if !env.superuser then
    Except.error ⟨Severity.errorLevel, SqlErrCode.insufficientPrivilege,
      "must be a superuser to execute pg_cause_fatal function",
      some testingDetail⟩
  else
    Except.error ⟨Severity.fatalLevel, SqlErrCode.internalError,
      "FATAL error generated by pg_cause_fatal function", none⟩

/-- pg_signal_backend_with_pid (lines 170-185): superuser check raising
ERROR (note: with no errdetail), then SignalBackend(pid, signum).  The
pair also carries the event trace of the call (empty when the privilege
check aborts it). -/
def pg_signal_backend_with_pid (env : Env) (pid signum : Int) :
    Except ErrData Bool × List Event :=
  if !env.superuser then
    (Except.error ⟨Severity.errorLevel, SqlErrCode.insufficientPrivilege,
      "must be a superuser to execute pg_signal_backend function", none⟩, [])
  else
    (Except.ok (SignalBackend env pid signum).1, (SignalBackend env pid signum).2)

/-- pg_current_wal_tli (lines 190-201): read the insert TimeLineID from
GetFlushRecPtr; NULL when it is 0, else the value. -/
def pg_current_wal_tli (env : Env) : Option Nat :=
  if env.currentTli = 0 then none else some env.currentTli

/-- pg_last_wal_replay_tli (lines 206-217): read the TimeLineID from
GetXLogReplayRecPtr; NULL when it is 0, else the value. -/
def pg_last_wal_replay_tli (env : Env) : Option Nat :=
  if env.replayTli = 0 then none else some env.replayTli

/-- pg_last_wal_receive_tli (lines 222-233): read the TimeLineID from
GetWalRcvFlushRecPtr; NULL when it is 0, else the value. -/
def pg_last_wal_receive_tli (env : Env) : Option Nat :=
  if env.receiveTli = 0 then none else some env.receiveTli

/-- Resolution outcomes, following the vocabulary of the spec (section 4.3). -/
inductive Resolution
  | resolvedSupervisor
  | resolvedWorker
  | resolvedAuxiliary
  | notFound
deriving DecidableEq, Repr

/-- The Process Resolver algorithm exactly as the spec states it in
section 4.3, used to compare the inline resolution done by SignalBackend
against the spec wording. -/
def resolveSpec (env : Env) (pid : Int) : Resolution :=
  if pid = env.postmasterPid then Resolution.resolvedSupervisor
  else if env.backendProc pid then Resolution.resolvedWorker
  else if env.auxProc pid then Resolution.resolvedAuxiliary
  else Resolution.notFound

/-- Registry query events, in order. -/
def registryQueries (evs : List Event) : List Event :=
  evs.filter fun e =>
    match e with
    | Event.queryWorkerRegistry _ => true
    | Event.queryAuxRegistry _ => true
    | _ => false

/-- Delivery (kill) events, in order. -/
def deliveries (evs : List Event) : List Event :=
  evs.filter fun e =>
    match e with
    | Event.sendSignal _ _ => true
    | _ => false

/-- WARNING diagnostics, in order. -/
def warningsOf (evs : List Event) : List Event :=
  evs.filter fun e =>
    match e with
    | Event.warnEvent _ => true
    | _ => false

/-- The errdetail of the error a call raised, when it raised one. -/
def raisedDetail {α : Type} : Except ErrData α → Option (Option String)
  | Except.error d => some d.detail
  | Except.ok _ => none

/-- The boolean outcome of SignalBackend as a function of only the
postmaster comparison, the two registry lookup results and the OS
delivery result: the determination set named by claim C9. -/
def outcomeFromObs (isSupervisor foundWorker foundAux : Bool)
    (killRes : Option String) : Bool :=
  if isSupervisor then killRes.isNone
  else if foundWorker then killRes.isNone
  else if foundAux then killRes.isNone
  else false

/-- Concrete environment: superuser, postmaster pid 7, worker registry
holds pid 42, auxiliary registry holds pid 43, HAVE_SETSID, kill always
succeeds, timelines 5 / 6 / 0. -/
def envEx : Env :=
  ⟨true, 7, (fun p => p == 42), (fun p => p == 43), true,
    (fun _ _ => none), 5, 6, 0⟩

/-- Concrete environment whose kill call always fails with ESRCH. -/
def envKillFail : Env :=
  ⟨true, 7, (fun p => p == 42), (fun p => p == 43), true,
    (fun _ _ => some "No such process"), 5, 6, 0⟩

/-- Concrete environment for an unauthorized caller. -/
def envNoSuper : Env :=
  ⟨false, 7, (fun p => p == 42), (fun p => p == 43), true,
    (fun _ _ => none), 5, 6, 0⟩

/-- Claim C1: for every pid that is not the postmaster pid and is in
neither registry, pg_signal_backend_with_pid (as a superuser, so that the
privilege gate passes) returns false with no hard error, its trace holds
exactly one warning diagnostic, which names the pid, and no signal
delivery is attempted. -/
theorem signal_unknown_pid_soft_failure (env : Env) (pid signum : Int)
    (hsu : env.superuser = true) (hpm : pid ≠ env.postmasterPid)
    (hb : env.backendProc pid = false) (ha : env.auxProc pid = false) :
    pg_signal_backend_with_pid env pid signum =
      (Except.ok false, [Event.queryWorkerRegistry pid,
        Event.queryAuxRegistry pid,
        Event.warnEvent (Warning.notServerProcess pid)]) := by
  simp [pg_signal_backend_with_pid, hsu, SignalBackend, hpm, hb, ha]

/-- Witness for C1: pid 100 is neither postmaster (7) nor registered in
envEx. -/
theorem signal_unknown_pid_soft_failure_witness :
    pg_signal_backend_with_pid envEx 100 15 =
      (Except.ok false, [Event.queryWorkerRegistry 100,
        Event.queryAuxRegistry 100,
        Event.warnEvent (Warning.notServerProcess 100)]) :=
  signal_unknown_pid_soft_failure envEx 100 15 rfl (by decide) rfl rfl

/-- Claim C2: SignalBackend resolves a pid in the order stated by the
spec: postmaster comparison first (resolved with no registry query, going
straight to delivery), then the worker registry, then the auxiliary
registry, else NotFound (both registries consulted, in that order, and no
delivery attempted). -/
theorem signal_resolution_order (env : Env) (pid signum : Int) :
    (resolveSpec env pid = Resolution.resolvedSupervisor →
      registryQueries (SignalBackend env pid signum).2 = [] ∧
      deliveries (SignalBackend env pid signum).2 =
        [Event.sendSignal (killTarget env pid) signum]) ∧
    (resolveSpec env pid = Resolution.resolvedWorker →
      registryQueries (SignalBackend env pid signum).2 =
        [Event.queryWorkerRegistry pid] ∧
      deliveries (SignalBackend env pid signum).2 =
        [Event.sendSignal (killTarget env pid) signum]) ∧
    (resolveSpec env pid = Resolution.resolvedAuxiliary →
      registryQueries (SignalBackend env pid signum).2 =
        [Event.queryWorkerRegistry pid, Event.queryAuxRegistry pid] ∧
      deliveries (SignalBackend env pid signum).2 =
        [Event.sendSignal (killTarget env pid) signum]) ∧
    (resolveSpec env pid = Resolution.notFound →
      registryQueries (SignalBackend env pid signum).2 =
        [Event.queryWorkerRegistry pid, Event.queryAuxRegistry pid] ∧
      deliveries (SignalBackend env pid signum).2 = []) := by
  by_cases hpm : pid = env.postmasterPid
  · subst hpm
    cases hk : env.kill (killTarget env env.postmasterPid) signum <;>
      simp [resolveSpec, SignalBackend, deliverSignal, registryQueries,
        deliveries, hk]
  · by_cases hb : env.backendProc pid
    · cases hk : env.kill (killTarget env pid) signum <;>
        simp [resolveSpec, SignalBackend, deliverSignal, registryQueries,
          deliveries, hpm, hb, hk]
    · by_cases ha : env.auxProc pid
      · cases hk : env.kill (killTarget env pid) signum <;>
          simp [resolveSpec, SignalBackend, deliverSignal, registryQueries,
            deliveries, hpm, hb, ha, hk]
      · simp [resolveSpec, SignalBackend, registryQueries, deliveries,
          hpm, hb, ha]

/-- Witness for C2: pid 42 is in the worker registry of envEx, so exactly
one registry query happens and the group signal is sent. -/
theorem signal_resolution_order_witness :
    registryQueries (SignalBackend envEx 42 15).2 =
      [Event.queryWorkerRegistry 42] ∧
    deliveries (SignalBackend envEx 42 15).2 =
      [Event.sendSignal (killTarget envEx 42) 15] :=
  (signal_resolution_order envEx 42 15).2.1 (by decide)

/-- Claim C3: for every resolved target (resolution is not NotFound),
SignalBackend attempts exactly one delivery, to -pid (the whole process
group) when the platform has setsid, and to pid itself otherwise. -/
theorem signal_group_delivery (env : Env) (pid signum : Int)
    (h : resolveSpec env pid ≠ Resolution.notFound) :
    deliveries (SignalBackend env pid signum).2 =
      [Event.sendSignal (if env.haveSetsid then -pid else pid) signum] := by
  suffices hs : deliveries (SignalBackend env pid signum).2 =
      [Event.sendSignal (killTarget env pid) signum] from hs
  by_cases hpm : pid = env.postmasterPid
  · subst hpm
    cases hk : env.kill (killTarget env env.postmasterPid) signum <;>
      simp [SignalBackend, deliverSignal, deliveries, hk]
  · by_cases hb : env.backendProc pid
    · cases hk : env.kill (killTarget env pid) signum <;>
        simp [SignalBackend, deliverSignal, deliveries, hpm, hb, hk]
    · by_cases ha : env.auxProc pid
      · cases hk : env.kill (killTarget env pid) signum <;>
          simp [SignalBackend, deliverSignal, deliveries, hpm, hb, ha, hk]
      · exact absurd (by simp [resolveSpec, hpm, hb, ha]) h

/-- Witness for C3: pid 43 is in the auxiliary registry of envEx, and
envEx has setsid, so the signal goes to the group -43. -/
theorem signal_group_delivery_witness :
    deliveries (SignalBackend envEx 43 9).2 =
      [Event.sendSignal (if envEx.haveSetsid then -43 else 43) 9] :=
  signal_group_delivery envEx 43 9 (by decide)

/-- Claim C4: for every resolved target, a failing kill() makes
SignalBackend return false with exactly one warning carrying the signal
number, the pid and the OS error detail; a succeeding kill() makes it
return true. -/
theorem signal_delivery_outcome (env : Env) (pid signum : Int)
    (h : resolveSpec env pid ≠ Resolution.notFound) :
    (∀ osErr, env.kill (killTarget env pid) signum = some osErr →
      (SignalBackend env pid signum).1 = false ∧
      warningsOf (SignalBackend env pid signum).2 =
        [Event.warnEvent (Warning.couldNotSendSignal signum pid osErr)]) ∧
    (env.kill (killTarget env pid) signum = none →
      (SignalBackend env pid signum).1 = true) := by
  by_cases hpm : pid = env.postmasterPid
  · subst hpm
    cases hk : env.kill (killTarget env env.postmasterPid) signum <;>
      simp [SignalBackend, deliverSignal, warningsOf, hk]
  · by_cases hb : env.backendProc pid
    · cases hk : env.kill (killTarget env pid) signum <;>
        simp [SignalBackend, deliverSignal, warningsOf, hpm, hb, hk]
    · by_cases ha : env.auxProc pid
      · cases hk : env.kill (killTarget env pid) signum <;>
          simp [SignalBackend, deliverSignal, warningsOf, hpm, hb, ha, hk]
      · exact absurd (by simp [resolveSpec, hpm, hb, ha]) h

/-- Witness for C4: in envKillFail every kill fails with ESRCH text, so
signalling the postmaster pid 7 returns false with the one warning; in
envEx every kill succeeds, so the same call returns true. -/
theorem signal_delivery_outcome_witness :
    ((SignalBackend envKillFail 7 9).1 = false ∧
      warningsOf (SignalBackend envKillFail 7 9).2 =
        [Event.warnEvent
          (Warning.couldNotSendSignal 9 7 "No such process")]) ∧
    (SignalBackend envEx 7 9).1 = true :=
  ⟨(signal_delivery_outcome envKillFail 7 9 (by decide)).1
      "No such process" rfl,
    (signal_delivery_outcome envEx 7 9 (by decide)).2 rfl⟩

/-- Claim C5: for a non-superuser caller, each of pg_cause_panic,
pg_cause_fatal and pg_signal_backend_with_pid raises the
insufficient-privilege ERROR at once: the crash functions never reach
their PANIC / FATAL ereport, and the signal function performs no registry
lookup, warning or kill at all (its event trace is empty). -/
theorem privilege_gate_blocks_unauthorized (env : Env) (pid signum : Int)
    (h : env.superuser = false) :
    pg_cause_panic env =
      Except.error ⟨Severity.errorLevel, SqlErrCode.insufficientPrivilege,
        "must be a superuser to execute pg_cause_panic function",
        some testingDetail⟩ ∧
    pg_cause_fatal env =
      Except.error ⟨Severity.errorLevel, SqlErrCode.insufficientPrivilege,
        "must be a superuser to execute pg_cause_fatal function",
        some testingDetail⟩ ∧
    pg_signal_backend_with_pid env pid signum =
      (Except.error ⟨Severity.errorLevel, SqlErrCode.insufficientPrivilege,
        "must be a superuser to execute pg_signal_backend function",
        none⟩, []) := by
  simp [pg_cause_panic, pg_cause_fatal, pg_signal_backend_with_pid, h]

/-- Witness for C5: envNoSuper is not a superuser. -/
theorem privilege_gate_blocks_unauthorized_witness :
    pg_cause_panic envNoSuper =
      Except.error ⟨Severity.errorLevel, SqlErrCode.insufficientPrivilege,
        "must be a superuser to execute pg_cause_panic function",
        some testingDetail⟩ ∧
    pg_cause_fatal envNoSuper =
      Except.error ⟨Severity.errorLevel, SqlErrCode.insufficientPrivilege,
        "must be a superuser to execute pg_cause_fatal function",
        some testingDetail⟩ ∧
    pg_signal_backend_with_pid envNoSuper 1 15 =
      (Except.error ⟨Severity.errorLevel, SqlErrCode.insufficientPrivilege,
        "must be a superuser to execute pg_signal_backend function",
        none⟩, []) :=
  privilege_gate_blocks_unauthorized envNoSuper 1 15 rfl

/-- Counterexample to claim C6: the insufficient-privilege error that
pg_signal_backend_with_pid raises for the unauthorized caller envNoSuper
carries no errdetail at all (raisedDetail evaluates to `some none`: an
error was raised and its detail field is empty), so this entry point does
not carry the testing/diagnostic-use note the claim requires of every
entry point. -/
theorem signal_privilege_error_lacks_note_cex :
    raisedDetail (pg_signal_backend_with_pid envNoSuper 1 15).1 =
      some none := rfl

/-- Claim C6 as amended: on an unauthorized caller, pg_cause_panic and
pg_cause_fatal raise insufficient-privilege errors whose errdetail is the
testing/development-use-only note, while the error raised by
pg_signal_backend_with_pid carries no such note (its errdetail is
absent). -/
theorem privilege_error_notes_amended (env : Env) (pid signum : Int)
    (h : env.superuser = false) :
    raisedDetail (pg_cause_panic env) = some (some testingDetail) ∧
    raisedDetail (pg_cause_fatal env) = some (some testingDetail) ∧
    raisedDetail (pg_signal_backend_with_pid env pid signum).1 =
      some none := by
  simp [pg_cause_panic, pg_cause_fatal, pg_signal_backend_with_pid,
    raisedDetail, h]

/-- Witness for the amended C6 at the concrete unauthorized caller. -/
theorem privilege_error_notes_amended_witness :
    raisedDetail (pg_cause_panic envNoSuper) = some (some testingDetail) ∧
    raisedDetail (pg_cause_fatal envNoSuper) = some (some testingDetail) ∧
    raisedDetail (pg_signal_backend_with_pid envNoSuper 1 15).1 =
      some none :=
  privilege_error_notes_amended envNoSuper 1 15 rfl

/-- Claim C7: each timeline accessor returns NULL exactly when its stored
TimeLineID is the zero sentinel, returns the stored value itself for
every stored value of at least 1, and never returns a literal zero. -/
theorem timeline_accessors_zero_sentinel (env : Env) :
    ((env.currentTli = 0 → pg_current_wal_tli env = none) ∧
      (1 ≤ env.currentTli →
        pg_current_wal_tli env = some env.currentTli) ∧
      pg_current_wal_tli env ≠ some 0) ∧
    ((env.replayTli = 0 → pg_last_wal_replay_tli env = none) ∧
      (1 ≤ env.replayTli →
        pg_last_wal_replay_tli env = some env.replayTli) ∧
      pg_last_wal_replay_tli env ≠ some 0) ∧
    ((env.receiveTli = 0 → pg_last_wal_receive_tli env = none) ∧
      (1 ≤ env.receiveTli →
        pg_last_wal_receive_tli env = some env.receiveTli) ∧
      pg_last_wal_receive_tli env ≠ some 0) := by
  refine ⟨⟨?_, ?_, ?_⟩, ⟨?_, ?_, ?_⟩, ⟨?_, ?_, ?_⟩⟩ <;>
    simp [pg_current_wal_tli, pg_last_wal_replay_tli,
      pg_last_wal_receive_tli] <;> omega

/-- Witness for C7: in envEx the current timeline is 5 (returned
literally) and the received timeline is 0 (returned as NULL). -/
theorem timeline_accessors_zero_sentinel_witness :
    pg_current_wal_tli envEx = some 5 ∧
    pg_last_wal_receive_tli envEx = none :=
  ⟨(timeline_accessors_zero_sentinel envEx).1.2.1 (by decide),
    (timeline_accessors_zero_sentinel envEx).2.2.1 rfl⟩

/-- Claim C8: for a superuser caller, pg_cause_panic raises PANIC (the
severity that restarts the whole cluster) and pg_cause_fatal raises FATAL
(the severity that terminates only the calling session); both results are
`Except.error`, i.e. neither call ever returns normally. -/
theorem crash_injector_severities (env : Env)
    (h : env.superuser = true) :
    pg_cause_panic env =
      Except.error ⟨Severity.panicLevel, SqlErrCode.internalError,
        "PANIC generated by pg_cause_panic function", none⟩ ∧
    pg_cause_fatal env =
      Except.error ⟨Severity.fatalLevel, SqlErrCode.internalError,
        "FATAL error generated by pg_cause_fatal function", none⟩ := by
  simp [pg_cause_panic, pg_cause_fatal, h]

/-- Witness for C8 at the concrete superuser environment. -/
theorem crash_injector_severities_witness :
    pg_cause_panic envEx =
      Except.error ⟨Severity.panicLevel, SqlErrCode.internalError,
        "PANIC generated by pg_cause_panic function", none⟩ ∧
    pg_cause_fatal envEx =
      Except.error ⟨Severity.fatalLevel, SqlErrCode.internalError,
        "FATAL error generated by pg_cause_fatal function", none⟩ :=
  crash_injector_severities envEx rfl

/-- Claim C9: SignalBackend validates neither input.  Every pid and
signum in the 32-bit range of PG_GETARG_INT32 (zero and negative values
included) is accepted, and the boolean outcome is exactly
outcomeFromObs applied to the postmaster comparison, the two registry
lookup results and the kill result: no other check influences it. -/
theorem signal_no_input_validation (env : Env) (pid signum : Int)
    (hp1 : -(2 ^ 31) ≤ pid) (hp2 : pid < 2 ^ 31)
    (hs1 : -(2 ^ 31) ≤ signum) (hs2 : signum < 2 ^ 31) :
    (SignalBackend env pid signum).1 =
      outcomeFromObs (pid == env.postmasterPid) (env.backendProc pid)
        (env.auxProc pid) (env.kill (killTarget env pid) signum) := by
  by_cases hpm : pid = env.postmasterPid
  · subst hpm
    cases hk : env.kill (killTarget env env.postmasterPid) signum <;>
      simp [SignalBackend, deliverSignal, outcomeFromObs, hk]
  · by_cases hb : env.backendProc pid
    · cases hk : env.kill (killTarget env pid) signum <;>
        simp [SignalBackend, deliverSignal, outcomeFromObs, hpm, hb, hk]
    · by_cases ha : env.auxProc pid
      · cases hk : env.kill (killTarget env pid) signum <;>
          simp [SignalBackend, deliverSignal, outcomeFromObs, hpm, hb,
            ha, hk]
      · simp [SignalBackend, outcomeFromObs, hpm, hb, ha]

/-- Witness for C9 at a negative pid and signal 0: both in the 32-bit
range, both accepted without any validity branch. -/
theorem signal_no_input_validation_witness :
    (SignalBackend envEx (-5) 0).1 =
      outcomeFromObs ((-5 : Int) == envEx.postmasterPid)
        (envEx.backendProc (-5)) (envEx.auxProc (-5))
        (envEx.kill (killTarget envEx (-5)) 0) :=
  signal_no_input_validation envEx (-5) 0 (by decide) (by decide)
    (by decide) (by decide)

/-- Claim C10: on every call, SignalBackend emits exactly one WARNING
diagnostic when it returns false and none when it returns true. -/
theorem signal_warning_iff_failure (env : Env) (pid signum : Int) :
    (warningsOf (SignalBackend env pid signum).2).length =
      (if (SignalBackend env pid signum).1 then 0 else 1) := by
  by_cases hpm : pid = env.postmasterPid
  · subst hpm
    cases hk : env.kill (killTarget env env.postmasterPid) signum <;>
      simp [SignalBackend, deliverSignal, warningsOf, hk]
  · by_cases hb : env.backendProc pid
    · cases hk : env.kill (killTarget env pid) signum <;>
        simp [SignalBackend, deliverSignal, warningsOf, hpm, hb, hk]
    · by_cases ha : env.auxProc pid
      · cases hk : env.kill (killTarget env pid) signum <;>
          simp [SignalBackend, deliverSignal, warningsOf, hpm, hb, ha, hk]
      · simp [SignalBackend, warningsOf, hpm, hb, ha]
